import Mathlib

/-! RayTracing: resolution registry and frame-buffer lifecycle

A shallow embedding of `RayTracing/src/WalnutApp.cpp`:

* the namespace `RayTracingConstants` (the five resolution names, the selectable list
  `kAvailableResolutions`, the table `kResolutionMap` and `TryChooseResolution`);
* the class `RayTracingLayer` (`OnUIRender`, `HandleSettingsPanel`,
  `HandleRenderingSettings`, `HandleViewport`, `Render`, `IsRenderedImageValid`).

Machine integers (`uint32_t`) are natural numbers reduced modulo `2^32` where the code can
overflow.  Pointers are modelled by what they point to (their identity), memory accesses
through an absent or too short array are faults.
-/

namespace RayTracingConstants

/-! ## Values of type `const char*` -/

/-- The five string literals of the translation unit, named after the constants that hold their
address (`kResName4k`, `kResName2k`, `kResNameFullHD`, `kResNameHD`, `kResNameLow`). -/
inductive Literal where
  | Name4k
  | Name2k
  | NameFullHD
  | NameHD
  | NameLow
  deriving DecidableEq, Repr

/-- The characters of each literal (source lines 12, 17, 22, 27, 32). -/
def Literal.text : Literal → String
  | .Name4k => "3840x2160"
  | .Name2k => "2560x1440"
  | .NameFullHD => "1920x1080"
  | .NameHD => "1280x720"
  | .NameLow => "640x480"

/-- A value of type `const char*`: the null pointer, the address of one of the five literals, or
any other address, given with the characters stored there.  Two of the five literals never share
an address, since the characters read from one address are the same for every reader and the five
texts differ. -/
inductive CharPtr where
  | null
  | literal (l : Literal)
  | other (address : Nat) (text : String)
  deriving DecidableEq, Repr

/-- The string a pointer points to (nothing for the null pointer). -/
def CharPtr.content : CharPtr → Option String
  | .null => none
  | .literal l => some l.text
  | .other _ text => some text

/-- The operator `==` of two `const char*` values: it compares the addresses and never the
characters (source line 110, and the key comparison `std::equal_to<const char*>` of
`kResolutionMap`). -/
def CharPtr.ptrEq : CharPtr → CharPtr → Bool
  | .null, .null => true
  | .literal a, .literal b => decide (a = b)
  | .other a _, .other b _ => decide (a = b)
  | _, _ => false

/-! ## The constants -/

def kResName4k : CharPtr := .literal .Name4k
def kWidth4k : Nat := 3840
def kHeight4k : Nat := 2160
def kRes4k : Nat × Nat := (kWidth4k, kHeight4k)

def kResName2k : CharPtr := .literal .Name2k
def kWidth2k : Nat := 2560
def kHeight2k : Nat := 1440
def kRes2k : Nat × Nat := (kWidth2k, kHeight2k)

def kResNameFullHD : CharPtr := .literal .NameFullHD
def kWidthFullHD : Nat := 1920
def kHeightFullHD : Nat := 1080
def kResFullHD : Nat × Nat := (kWidthFullHD, kHeightFullHD)

def kResNameHD : CharPtr := .literal .NameHD
def kWidthHD : Nat := 1280
def kHeightHD : Nat := 720
def kResHD : Nat × Nat := (kWidthHD, kHeightHD)

def kResNameLow : CharPtr := .literal .NameLow
def kWidthLow : Nat := 640
def kHeightLow : Nat := 480
def kResLow : Nat × Nat := (kWidthLow, kHeightLow)

/-- Source line 37. -/
def kAvailableResolutions : List CharPtr :=
  [kResNameLow, kResNameHD, kResNameFullHD, kResName2k, kResName4k]

/-- The entries `kResolutionMap` is built from (source line 39), in the order of the initializer
list.  The keys are pairwise different addresses, so all five entries are in the map. -/
def kResolutionMap : List (CharPtr × (Nat × Nat)) :=
  [(kResName4k, kRes4k), (kResName2k, kRes2k), (kResNameFullHD, kResFullHD),
   (kResNameHD, kResHD), (kResNameLow, kResLow)]

/-- The member `find` of `std::unordered_map<const char*, ...>`: the entry whose key is the same
pointer as `key`, or nothing (`end()`). -/
def find (map : List (CharPtr × (Nat × Nat))) (key : CharPtr) : Option (CharPtr × (Nat × Nat)) :=
  map.find? (fun entry => entry.1.ptrEq key)

/-- Source lines 41-52.  The two reference parameters are passed in and returned: the result is
`(returned bool, OutWidth, OutHeight)`. -/
def TryChooseResolution (ResolutionName : CharPtr) (OutWidth OutHeight : Nat) :
    Bool × Nat × Nat :=
  match find kResolutionMap ResolutionName with
  | none => (false, OutWidth, OutHeight)
  | some ResolutionIt => (true, ResolutionIt.2.1, ResolutionIt.2.2)

end RayTracingConstants

open RayTracingConstants

/-! ## The runtime the layer runs in -/

/-- What goes wrong when the code accesses memory it does not own. -/
inductive Fault where
  | nullDereference
  | outOfBounds
  deriving DecidableEq, Repr

/-- Modelled from the spec: the class `Walnut::Image` of the header `Walnut/Image.h`, which is
not among the sources (the displayable image service: create with a width and a height, upload,
width, height).  An image has an identity, its dimensions, and the pixels last uploaded. -/
structure Image where
  handle : Nat
  Width : Nat
  Height : Nat
  Pixels : List Nat
  deriving DecidableEq, Repr

/-- Modelled from the spec: the width an image was created with. -/
def Image.GetWidth (img : Image) : Nat := img.Width

/-- Modelled from the spec: the height an image was created with. -/
def Image.GetHeight (img : Image) : Nat := img.Height

/-- Modelled from the spec: the upload `SetData(ImageData)` of `Walnut/Image.h`, which pushes
the contents of the array to the image. -/
def Image.SetData (img : Image) (data : List Nat) : Image := { img with Pixels := data }

/-- An array made by `new uint32_t[n]`: its identity and its `n` cells. -/
structure PixelArray where
  block : Nat
  cells : List Nat
  deriving DecidableEq, Repr

/-- The world around the layer: the values `Random::UInt` is going to return and how many of
them were drawn, counters of the allocations and releases performed so far (the value of a
counter is the identity of the next object), and a log with one entry
`(CurrentResolution, RenderingWidth, RenderingHeight)` for each invocation of `Render`. -/
structure Runtime where
  random : Nat → Nat
  drawn : Nat
  imagesCreated : Nat
  imagesReleased : Nat
  arraysAllocated : Nat
  arraysFreed : Nat
  renderLog : List (CharPtr × Nat × Nat)

/-- The runtime at program start, for a given sequence of random values. -/
def Runtime.initial (random : Nat → Nat) : Runtime :=
  { random := random, drawn := 0, imagesCreated := 0, imagesReleased := 0,
    arraysAllocated := 0, arraysFreed := 0, renderLog := [] }

/-- Modelled from the spec: the call `Random::UInt()` of the header `Walnut/Random.h`, which is
not among the sources: a drawn 32-bit value, here the next value of the sequence as a
`uint32_t`. -/
def Random.UInt (R : Runtime) : Nat × Runtime :=
  (R.random R.drawn % 2 ^ 32, { R with drawn := R.drawn + 1 })

/-- The product of two `uint32_t` values. -/
def mul32 (a b : Nat) : Nat := (a * b) % 2 ^ 32

/-- The assignment `ImageData[I] = v`. -/
def store (data : Option PixelArray) (I v : Nat) : Except Fault (Option PixelArray) :=
  match data with
  | none => .error .nullDereference
  | some a =>
    if I < a.cells.length then .ok (some { a with cells := a.cells.set I v })
    else .error .outOfBounds

/-- The read of `ImageData[I]`. -/
def load (data : Option PixelArray) (I : Nat) : Except Fault Nat :=
  match data with
  | none => .error .nullDereference
  | some a =>
    match a.cells[I]? with
    | none => .error .outOfBounds
    | some v => .ok v

/-! ## The class `RayTracingLayer` -/

/-- The data members (source lines 176-187).  `LastRenderTime` is a measured time that no
decision reads; it is left out. -/
structure RayTracingLayer where
  RenderedImage : Option Image
  ImageData : Option PixelArray
  RenderingWidth : Nat
  RenderingHeight : Nat
  IsRealtime : Bool
  ShouldRender : Bool
  CurrentResolution : CharPtr

/-- The default member initializers. -/
def RayTracingLayer.initial : RayTracingLayer :=
  { RenderedImage := none, ImageData := none, RenderingWidth := 0, RenderingHeight := 0,
    IsRealtime := false, ShouldRender := false, CurrentResolution := kResNameLow }

/-- Source lines 169-174. -/
def IsRenderedImageValid (L : RayTracingLayer) : Bool :=
  match L.RenderedImage with
  | none => false
  | some img =>
    decide (img.GetWidth = L.RenderingWidth) && decide (img.GetHeight = L.RenderingHeight)

/-- Source lines 152-154: a new image replaces the old one (which the shared pointer releases),
the old array is deleted (`delete[]` of a null pointer does nothing) and a new array of
`RenderingWidth * RenderingHeight` cells is allocated.  The cells of a new array hold no
meaningful value; they are written as 0. -/
def Render.reallocate (L : RayTracingLayer) (R : Runtime) : RayTracingLayer × Runtime :=
  let img : Image :=
    { handle := R.imagesCreated, Width := L.RenderingWidth, Height := L.RenderingHeight,
      Pixels := [] }
  let arr : PixelArray :=
    { block := R.arraysAllocated,
      cells := List.replicate (mul32 L.RenderingWidth L.RenderingHeight) 0 }
  ({ L with RenderedImage := some img, ImageData := some arr },
   { R with
      imagesCreated := R.imagesCreated + 1
      imagesReleased := R.imagesReleased + (if L.RenderedImage.isSome then 1 else 0)
      arraysFreed := R.arraysFreed + (if L.ImageData.isSome then 1 else 0)
      arraysAllocated := R.arraysAllocated + 1 })

/-- Source lines 157-162: the loop `for (uint32_t I = 0; I < bound; I++)`, entered at index `I`
with `remaining = bound - I` iterations to go (the bound does not change in the loop, and `I`
stays below it, so the increment never wraps). -/
def Render.fill : Nat → Nat → Option PixelArray → Runtime →
    Except Fault (Option PixelArray × Runtime)
  | 0, _, data, R => .ok (data, R)
  | remaining + 1, I, data, R =>
    match store data I (Random.UInt R).1 with
    | .error e => .error e
    | .ok data1 =>
      match load data1 I with
      | .error e => .error e
      | .ok x =>
        match store data1 I (x ||| 0xff000000) with
        | .error e => .error e
        | .ok data2 => Render.fill remaining (I + 1) data2 (Random.UInt R).2

/-- Source lines 150-155: the layer and the runtime when the pixel loop is entered. -/
def Render.ensure (L : RayTracingLayer) (R : Runtime) : RayTracingLayer × Runtime :=
  if IsRenderedImageValid L then (L, R) else Render.reallocate L R

/-- Source lines 146-167 (without the timer).  The invocation is entered in the log first. -/
def Render (L : RayTracingLayer) (R : Runtime) : Except Fault (RayTracingLayer × Runtime) :=
  let R0 : Runtime :=
    { R with renderLog :=
        R.renderLog ++ [(L.CurrentResolution, L.RenderingWidth, L.RenderingHeight)] }
  let LR : RayTracingLayer × Runtime := Render.ensure L R0
  match Render.fill (mul32 LR.1.RenderingWidth LR.1.RenderingHeight) 0 LR.1.ImageData LR.2 with
  | .error e => .error e
  | .ok (data, R2) =>
    match LR.1.RenderedImage, data with
    | some img, some arr =>
      .ok ({ LR.1 with ImageData := data, RenderedImage := some (img.SetData arr.cells) }, R2)
    | _, _ => .error .nullDereference

/-- Modelled from the spec: the widgets of the GUI library (`ImGui`, not among the sources), of
which the layer consumes only the resulting booleans.  In one frame: whether the checkbox was
clicked, whether the combo box is open, what `Selectable` returns for entry `I` (it is told
whether the entry is the selected one), and what the two buttons return.  All of them are
arbitrary. -/
structure FrameInput where
  CheckboxClicked : Bool
  ComboOpen : Bool
  Selectable : Nat → Bool → Bool
  RenderButton : Bool
  StopButton : Bool

/-- Source lines 108-121: the loop over `kAvailableResolutions`, entered at index `I` with the
entries from `I` on still to visit. -/
def selectLoop (Selectable : Nat → Bool → Bool) :
    List CharPtr → Nat → CharPtr → CharPtr
  | [], _, CurrentResolution => CurrentResolution
  | entry :: rest, I, CurrentResolution =>
    let IsSelected := CurrentResolution.ptrEq entry
    if !Selectable I IsSelected then selectLoop Selectable rest (I + 1) CurrentResolution
    else selectLoop Selectable rest (I + 1) entry

/-- Modelled from the spec: the value of `IsRealtime` after
`ImGui::Checkbox("Realtime", &IsRealtime)`: a click flips it, so any value can follow any. -/
def Checkbox (clicked value : Bool) : Bool := if clicked then !value else value

/-- Source lines 100-144. -/
def HandleRenderingSettings (inp : FrameInput) (L : RayTracingLayer) : RayTracingLayer :=
  let L1 : RayTracingLayer := { L with IsRealtime := Checkbox inp.CheckboxClicked L.IsRealtime }
  let L2 : RayTracingLayer :=
    if inp.ComboOpen then
      { L1 with CurrentResolution :=
          selectLoop inp.Selectable kAvailableResolutions 0 L1.CurrentResolution }
    else L1
  let chosen := TryChooseResolution L2.CurrentResolution L2.RenderingWidth L2.RenderingHeight
  let L3 : RayTracingLayer :=
    { L2 with RenderingWidth := chosen.2.1, RenderingHeight := chosen.2.2 }
  let ShouldStart := inp.RenderButton
  let ShouldStop := if L3.ShouldRender && L3.IsRealtime then inp.StopButton else false
  { L3 with ShouldRender :=
      !ShouldStop && (ShouldStart || (L3.ShouldRender && L3.IsRealtime)) }

/-- Source lines 89-98. -/
def HandleSettingsPanel (inp : FrameInput) (L : RayTracingLayer) : RayTracingLayer :=
  HandleRenderingSettings inp L

/-- Source lines 66-87: showing the image changes nothing in the layer. -/
def HandleViewport (L : RayTracingLayer) (R : Runtime) :
    Except Fault (RayTracingLayer × Runtime) :=
  if L.ShouldRender then Render L R else .ok (L, R)

/-- Source lines 59-63. -/
def OnUIRender (inp : FrameInput) (L : RayTracingLayer) (R : Runtime) :
    Except Fault (RayTracingLayer × Runtime) :=
  HandleViewport (HandleSettingsPanel inp L) R

/-- The application loop: one `OnUIRender` per frame, stopping at the first fault. -/
def runFrames : List FrameInput → RayTracingLayer → Runtime →
    Except Fault (RayTracingLayer × Runtime)
  | [], L, R => .ok (L, R)
  | inp :: rest, L, R =>
    match OnUIRender inp L R with
    | .error e => .error e
    | .ok (L1, R1) => runFrames rest L1 R1


/-! ## Notions the properties are stated with -/

/-- The five registered names, as strings. -/
def registeredNames : List String :=
  ["640x480", "1280x720", "1920x1080", "2560x1440", "3840x2160"]

/-- The literal (width, height) pair a registered name spells. -/
def literalPair (name : String) : Option (Nat × Nat) :=
  if name = "640x480" then some (640, 480)
  else if name = "1280x720" then some (1280, 720)
  else if name = "1920x1080" then some (1920, 1080)
  else if name = "2560x1440" then some (2560, 1440)
  else if name = "3840x2160" then some (3840, 2160)
  else none

/-- The pixel the loop of `Render` leaves in a cell for which it drew the `n`-th value of
the random sequence. -/
def pixelOf (R : Runtime) (n : Nat) : Nat := (R.random n % 2 ^ 32) ||| 0xff000000

/-- Bits 24-31 of a pixel. -/
def topByte (v : Nat) : Nat := (v >>> 24) % 256

/-- The image and the array exist together, and the array has as many cells as the 32-bit
product of the image's dimensions.  It holds in the initial state and `Render` keeps it, so it
holds in every reachable state (`ControllerReachable_consistent`, `FrameReachable_consistent`). -/
def Consistent (L : RayTracingLayer) : Bool :=
  match L.RenderedImage, L.ImageData with
  | none, none => true
  | some img, some arr => decide (arr.cells.length = mul32 img.GetWidth img.GetHeight)
  | _, _ => false

/-- The (width, height) pairs of the registry. -/
def registryTargets : List (Nat × Nat) := kResolutionMap.map (fun entry => entry.2)

/-- The layer with `RenderingWidth` and `RenderingHeight` set to a target. -/
def retarget (L : RayTracingLayer) (target : Nat × Nat) : RayTracingLayer :=
  { L with RenderingWidth := target.1, RenderingHeight := target.2 }

/-- The number of `Render` invocations so far. -/
def Runtime.renders (R : Runtime) : Nat := R.renderLog.length

/-- The states of the frame-buffer controller reachable from the initial state by `Render` calls
with targets of the registry. -/
inductive ControllerReachable : RayTracingLayer → Runtime → Prop where
  | initial (random : Nat → Nat) :
      ControllerReachable RayTracingLayer.initial (Runtime.initial random)
  | render {L L1 : RayTracingLayer} {R R1 : Runtime} (target : Nat × Nat) :
      ControllerReachable L R → target ∈ registryTargets →
      Render (retarget L target) R = .ok (L1, R1) → ControllerReachable L1 R1

/-- The states of the layer reachable from the initial state by UI frames, whatever the widgets
return. -/
inductive FrameReachable : RayTracingLayer → Runtime → Prop where
  | initial (random : Nat → Nat) :
      FrameReachable RayTracingLayer.initial (Runtime.initial random)
  | frame {L L1 : RayTracingLayer} {R R1 : Runtime} (inp : FrameInput) :
      FrameReachable L R → OnUIRender inp L R = .ok (L1, R1) → FrameReachable L1 R1

/-- Whether the Realtime checkbox is off in every frame of a sequence, as the frames see it
(after their `Checkbox` call), when `IsRealtime` has the given value before the first frame. -/
def realtimeOffThroughout : Bool → List FrameInput → Bool
  | _, [] => true
  | value, inp :: rest =>
    !Checkbox inp.CheckboxClicked value &&
      realtimeOffThroughout (Checkbox inp.CheckboxClicked value) rest

/-- The number of frames of a sequence in which the "Render" button is pressed. -/
def renderPresses (frames : List FrameInput) : Nat :=
  frames.countP (fun inp => inp.RenderButton)

/-- The image and the array of `L1` are the objects `L` holds, and between the runtimes `R` and
`R1` nothing was allocated or released. -/
def SameObjects (L L1 : RayTracingLayer) (R R1 : Runtime) : Prop :=
  L.RenderedImage.isSome = true ∧ L.ImageData.isSome = true ∧
  L1.RenderedImage.map Image.handle = L.RenderedImage.map Image.handle ∧
  L1.ImageData.map PixelArray.block = L.ImageData.map PixelArray.block ∧
  R1.imagesCreated = R.imagesCreated ∧ R1.imagesReleased = R.imagesReleased ∧
  R1.arraysAllocated = R.arraysAllocated ∧ R1.arraysFreed = R.arraysFreed

instance (L L1 : RayTracingLayer) (R R1 : Runtime) : Decidable (SameObjects L L1 R R1) := by
  unfold SameObjects
  infer_instance

/-! ## The pixel loop -/

theorem topByte_lor_alpha (x : Nat) : topByte (x ||| 0xff000000) = 0xFF := by
  unfold topByte
  have e1 : (0xff000000 : Nat) = (2 ^ 8 - 1) <<< 24 := by decide
  have e2 : (0xFF : Nat) = 2 ^ 8 - 1 := by decide
  have e3 : (256 : Nat) = 2 ^ 8 := by decide
  rw [e1, e2, e3]
  apply Nat.eq_of_testBit_eq
  intro i
  simp only [Nat.testBit_mod_two_pow, Nat.testBit_shiftRight, Nat.testBit_or,
    Nat.testBit_shiftLeft, Nat.testBit_two_pow_sub_one]
  by_cases h : i < 8 <;> simp [h]

theorem fill_step (remaining I : Nat) (arr : PixelArray) (R : Runtime)
    (h : I < arr.cells.length) :
    Render.fill (remaining + 1) I (some arr) R =
      Render.fill remaining (I + 1)
        (some { arr with cells := arr.cells.set I (pixelOf R R.drawn) })
        { R with drawn := R.drawn + 1 } := by
  simp [Render.fill, store, load, h, Random.UInt, pixelOf]

theorem fill_ok (remaining : Nat) : ∀ (I : Nat) (arr : PixelArray) (R : Runtime),
    I + remaining ≤ arr.cells.length →
    ∃ cells1 : List Nat,
      Render.fill remaining I (some arr) R =
        .ok (some { arr with cells := cells1 }, { R with drawn := R.drawn + remaining })
      ∧ cells1.length = arr.cells.length
      ∧ (∀ j, I ≤ j → j < I + remaining →
          cells1[j]? = some (pixelOf R (R.drawn + (j - I))))
      ∧ (∀ j, j < I → cells1[j]? = arr.cells[j]?) := by
  induction remaining with
  | zero =>
    intro I arr R _
    exact ⟨arr.cells, by simp [Render.fill], rfl, by intro j h1 h2; omega, by intro j _; rfl⟩
  | succ k ih =>
    intro I arr R hlen
    have hI : I < arr.cells.length := by omega
    obtain ⟨cells1, hrun, hl, hnew, hold⟩ :=
      ih (I + 1) { arr with cells := arr.cells.set I (pixelOf R R.drawn) }
        { R with drawn := R.drawn + 1 } (by simp only [List.length_set]; omega)
    refine ⟨cells1, ?_, ?_, ?_, ?_⟩
    · rw [fill_step k I arr R hI, hrun]
      simp [Nat.add_assoc, Nat.add_comm 1 k]
    · simpa using hl
    · intro j h1 h2
      by_cases hj : j = I
      · subst hj
        have := hold j (Nat.lt_succ_self j)
        simp [hI] at this
        simpa using this
      · have := hnew j (by omega) (by omega)
        rw [this]
        simp only [pixelOf]
        congr 4
        omega
    · intro j hj
      have := hold j (by omega)
      rw [this]
      simp [List.getElem?_set_ne (show I ≠ j by omega)]

theorem fill_ok_inv (remaining : Nat) : ∀ (I : Nat) (data : Option PixelArray) (R : Runtime)
    (out : Option PixelArray × Runtime), Render.fill remaining I data R = .ok out →
    remaining = 0 ∨ ∃ arr, data = some arr ∧ I + remaining ≤ arr.cells.length := by
  induction remaining with
  | zero => intro _ _ _ _ _; exact Or.inl rfl
  | succ k ih =>
    intro I data R out hrun
    right
    cases data with
    | none => simp [Render.fill, store] at hrun
    | some arr =>
      refine ⟨arr, rfl, ?_⟩
      by_cases hI : I < arr.cells.length
      · rw [fill_step k I arr R hI] at hrun
        rcases ih _ _ _ _ hrun with h0 | ⟨arr1, harr1, hle⟩
        · omega
        · simp at harr1
          subst harr1
          simp at hle
          omega
      · simp [Render.fill, store, hI] at hrun

/-! ## `Render` -/

theorem Render_valid (L : RayTracingLayer) (R : Runtime) (hC : Consistent L = true)
    (hV : IsRenderedImageValid L = true) :
    ∃ (img : Image) (arr : PixelArray) (cells1 : List Nat),
      L.RenderedImage = some img ∧ L.ImageData = some arr ∧
      img.Width = L.RenderingWidth ∧ img.Height = L.RenderingHeight ∧
      Render L R =
        .ok ({ L with ImageData := some { arr with cells := cells1 },
                      RenderedImage := some (img.SetData cells1) },
             { R with
                renderLog :=
                  R.renderLog ++ [(L.CurrentResolution, L.RenderingWidth, L.RenderingHeight)],
                drawn := R.drawn + mul32 L.RenderingWidth L.RenderingHeight }) ∧
      cells1.length = mul32 L.RenderingWidth L.RenderingHeight ∧
      ∀ j, j < mul32 L.RenderingWidth L.RenderingHeight →
        cells1[j]? = some (pixelOf R (R.drawn + j)) := by
  cases hI : L.RenderedImage with
  | none => simp [IsRenderedImageValid, hI] at hV
  | some img =>
    cases hD : L.ImageData with
    | none => simp [Consistent, hI, hD] at hC
    | some arr =>
      simp [IsRenderedImageValid, hI, Image.GetWidth, Image.GetHeight] at hV
      simp [Consistent, hI, hD, Image.GetWidth, Image.GetHeight, hV.1, hV.2] at hC
      obtain ⟨cells1, hrun, hl, hnew, _⟩ :=
        fill_ok (mul32 L.RenderingWidth L.RenderingHeight) 0 arr
          { R with renderLog :=
              R.renderLog ++ [(L.CurrentResolution, L.RenderingWidth, L.RenderingHeight)] }
          (by omega)
      refine ⟨img, arr, cells1, rfl, rfl, hV.1, hV.2, ?_, by omega, ?_⟩
      · simp [Render, Render.ensure, IsRenderedImageValid, hI, hD, Image.GetWidth, Image.GetHeight, hV.1,
          hV.2, hrun]
      · intro j hj
        have := hnew j (Nat.zero_le j) (by omega)
        simpa [pixelOf] using this

theorem Render_invalid (L : RayTracingLayer) (R : Runtime)
    (hV : IsRenderedImageValid L = false) :
    ∃ cells1 : List Nat,
      Render L R =
        .ok ({ L with
                ImageData := some { block := R.arraysAllocated, cells := cells1 },
                RenderedImage :=
                  some { handle := R.imagesCreated, Width := L.RenderingWidth,
                         Height := L.RenderingHeight, Pixels := cells1 } },
             { R with
                renderLog :=
                  R.renderLog ++ [(L.CurrentResolution, L.RenderingWidth, L.RenderingHeight)],
                drawn := R.drawn + mul32 L.RenderingWidth L.RenderingHeight,
                imagesCreated := R.imagesCreated + 1,
                imagesReleased := R.imagesReleased + (if L.RenderedImage.isSome then 1 else 0),
                arraysFreed := R.arraysFreed + (if L.ImageData.isSome then 1 else 0),
                arraysAllocated := R.arraysAllocated + 1 }) ∧
      cells1.length = mul32 L.RenderingWidth L.RenderingHeight ∧
      ∀ j, j < mul32 L.RenderingWidth L.RenderingHeight →
        cells1[j]? = some (pixelOf R (R.drawn + j)) := by
  obtain ⟨cells1, hrun, hl, hnew, _⟩ :=
    fill_ok (mul32 L.RenderingWidth L.RenderingHeight) 0
      { block := R.arraysAllocated,
        cells := List.replicate (mul32 L.RenderingWidth L.RenderingHeight) 0 }
      { R with
          renderLog :=
            R.renderLog ++ [(L.CurrentResolution, L.RenderingWidth, L.RenderingHeight)],
          imagesCreated := R.imagesCreated + 1,
          imagesReleased := R.imagesReleased + (if L.RenderedImage.isSome then 1 else 0),
          arraysFreed := R.arraysFreed + (if L.ImageData.isSome then 1 else 0),
          arraysAllocated := R.arraysAllocated + 1 }
      (by simp)
  refine ⟨cells1, ?_, by simpa using hl, ?_⟩
  · simp [Render, Render.ensure, hV, Render.reallocate, hrun, Image.SetData]
  · intro j hj
    have := hnew j (Nat.zero_le j) (by omega)
    simpa [pixelOf] using this

theorem Render_ok_cells (L L1 : RayTracingLayer) (R R1 : Runtime)
    (h : Render L R = .ok (L1, R1)) :
    ∃ arr, L1.ImageData = some arr ∧
      ∀ j, j < mul32 L.RenderingWidth L.RenderingHeight →
        arr.cells[j]? = some (pixelOf R (R.drawn + j)) := by
  cases hV : IsRenderedImageValid L with
  | false =>
    obtain ⟨cells1, hrun, _, hnew⟩ := Render_invalid L R hV
    rw [hrun] at h
    simp only [Except.ok.injEq, Prod.mk.injEq] at h
    refine ⟨{ block := R.arraysAllocated, cells := cells1 }, ?_, hnew⟩
    rw [← h.1]
  | true =>
    cases hf : Render.fill (mul32 L.RenderingWidth L.RenderingHeight) 0 L.ImageData
        { R with renderLog :=
            R.renderLog ++ [(L.CurrentResolution, L.RenderingWidth, L.RenderingHeight)] } with
    | error e => simp [Render, Render.ensure, hV, hf] at h
    | ok out =>
      rcases fill_ok_inv _ _ _ _ _ hf with h0 | ⟨arr, hd, hle⟩
      · rw [h0] at hf
        simp only [Render.fill, Except.ok.injEq] at hf
        simp only [Render, Render.ensure, hV, if_true, h0, Render.fill] at h
        cases hI : L.RenderedImage with
        | none => simp [hI] at h
        | some img =>
          cases hD : L.ImageData with
          | none => simp [hI, hD] at h
          | some arr =>
            simp only [hI, hD, Except.ok.injEq, Prod.mk.injEq] at h
            refine ⟨arr, ?_, ?_⟩
            · rw [← h.1]
            · intro j hj; omega
      · obtain ⟨cells1, hrun, _, hnew, _⟩ :=
          fill_ok (mul32 L.RenderingWidth L.RenderingHeight) 0 arr
            { R with renderLog :=
                R.renderLog ++ [(L.CurrentResolution, L.RenderingWidth, L.RenderingHeight)] }
            (by omega)
        simp only [Render, Render.ensure, hV, if_true, hd, hrun] at h
        cases hI : L.RenderedImage with
        | none => simp [hI] at h
        | some img =>
          simp only [hI, Except.ok.injEq, Prod.mk.injEq] at h
          refine ⟨{ arr with cells := cells1 }, ?_, ?_⟩
          · rw [← h.1]
          · intro j hj
            have := hnew j (Nat.zero_le j) (by omega)
            simpa [pixelOf] using this

theorem Render_total (L : RayTracingLayer) (R : Runtime) (hC : Consistent L = true) :
    ∃ (L1 : RayTracingLayer) (R1 : Runtime) (img : Image) (arr : PixelArray),
      Render L R = .ok (L1, R1) ∧
      L1.RenderedImage = some img ∧ L1.ImageData = some arr ∧
      img.Width = L.RenderingWidth ∧ img.Height = L.RenderingHeight ∧
      arr.cells.length = mul32 L.RenderingWidth L.RenderingHeight ∧
      L1.RenderingWidth = L.RenderingWidth ∧ L1.RenderingHeight = L.RenderingHeight ∧
      L1.IsRealtime = L.IsRealtime ∧ L1.ShouldRender = L.ShouldRender ∧
      L1.CurrentResolution = L.CurrentResolution ∧
      R1.renderLog =
        R.renderLog ++ [(L.CurrentResolution, L.RenderingWidth, L.RenderingHeight)] ∧
      Consistent L1 = true := by
  cases hV : IsRenderedImageValid L with
  | false =>
    obtain ⟨cells1, hrun, hl, _⟩ := Render_invalid L R hV
    exact ⟨_, _, _, _, hrun, rfl, rfl, rfl, rfl, hl, rfl, rfl, rfl, rfl, rfl, rfl,
      by simp [Consistent, Image.GetWidth, Image.GetHeight, hl]⟩
  | true =>
    obtain ⟨img, arr, cells1, _, _, hw, hh, hrun, hl, _⟩ := Render_valid L R hC hV
    exact ⟨_, _, _, _, hrun, rfl, rfl, hw, hh, hl, rfl, rfl, rfl, rfl, rfl, rfl,
      by simp [Consistent, Image.GetWidth, Image.GetHeight, Image.SetData, hl, hw, hh]⟩

theorem Consistent_retarget (L : RayTracingLayer) (target : Nat × Nat) :
    Consistent (retarget L target) = Consistent L := rfl

theorem ControllerReachable_consistent {L : RayTracingLayer} {R : Runtime}
    (h : ControllerReachable L R) : Consistent L = true := by
  induction h with
  | initial random => rfl
  | render target _ _ hrun ih =>
    obtain ⟨L2, R2, _, _, hrun2, _, _, _, _, _, _, _, _, _, _, _, hC⟩ :=
      Render_total (retarget _ target) _ ((Consistent_retarget _ target).trans ih)
    rw [hrun2] at hrun
    simp only [Except.ok.injEq, Prod.mk.injEq] at hrun
    rw [← hrun.1]
    exact hC

theorem Consistent_HandleSettingsPanel (inp : FrameInput) (L : RayTracingLayer) :
    Consistent (HandleSettingsPanel inp L) = Consistent L := by
  unfold HandleSettingsPanel HandleRenderingSettings Consistent
  by_cases h : inp.ComboOpen <;> simp [h]

theorem OnUIRender_total (inp : FrameInput) (L : RayTracingLayer) (R : Runtime)
    (hC : Consistent L = true) :
    ∃ (L1 : RayTracingLayer) (R1 : Runtime),
      OnUIRender inp L R = .ok (L1, R1) ∧ Consistent L1 = true ∧
      L1.IsRealtime = (HandleSettingsPanel inp L).IsRealtime ∧
      L1.ShouldRender = (HandleSettingsPanel inp L).ShouldRender ∧
      L1.CurrentResolution = (HandleSettingsPanel inp L).CurrentResolution ∧
      L1.RenderingWidth = (HandleSettingsPanel inp L).RenderingWidth ∧
      L1.RenderingHeight = (HandleSettingsPanel inp L).RenderingHeight ∧
      R1.renderLog = R.renderLog ++
        (if (HandleSettingsPanel inp L).ShouldRender then
          [((HandleSettingsPanel inp L).CurrentResolution,
            (HandleSettingsPanel inp L).RenderingWidth,
            (HandleSettingsPanel inp L).RenderingHeight)]
         else []) := by
  have hC1 : Consistent (HandleSettingsPanel inp L) = true :=
    (Consistent_HandleSettingsPanel inp L).trans hC
  cases hS : (HandleSettingsPanel inp L).ShouldRender with
  | false =>
    exact ⟨HandleSettingsPanel inp L, R, by simp [OnUIRender, HandleViewport, hS], hC1, rfl,
      hS, rfl, rfl, rfl, by simp⟩
  | true =>
    obtain ⟨L1, R1, _, _, hrun, _, _, _, _, _, hw, hh, hr, hs, hc, hlog, hC2⟩ :=
      Render_total (HandleSettingsPanel inp L) R hC1
    exact ⟨L1, R1, by simp [OnUIRender, HandleViewport, hS, hrun], hC2, hr, hs.trans hS, hc,
      hw, hh, by simpa using hlog⟩

theorem FrameReachable_consistent {L : RayTracingLayer} {R : Runtime}
    (h : FrameReachable L R) : Consistent L = true := by
  induction h with
  | initial random => rfl
  | frame inp _ hrun ih =>
    obtain ⟨L2, R2, hrun2, hC, _⟩ := OnUIRender_total inp _ _ ih
    rw [hrun2] at hrun
    simp only [Except.ok.injEq, Prod.mk.injEq] at hrun
    rw [← hrun.1]
    exact hC

/-! ## The resolution registry -/

theorem find_literal (l : Literal) :
    find kResolutionMap (.literal l) =
      some (match l with
        | .Name4k => (kResName4k, kRes4k)
        | .Name2k => (kResName2k, kRes2k)
        | .NameFullHD => (kResNameFullHD, kResFullHD)
        | .NameHD => (kResNameHD, kResHD)
        | .NameLow => (kResNameLow, kResLow)) := by
  cases l <;> rfl

theorem find_other (address : Nat) (text : String) :
    find kResolutionMap (.other address text) = none := rfl

theorem find_null : find kResolutionMap .null = none := rfl

theorem find_unregistered (p : CharPtr)
    (h : ∀ name, name ∈ registeredNames → p.content ≠ some name) :
    find kResolutionMap p = none := by
  cases p with
  | null => exact find_null
  | other address text => exact find_other address text
  | literal l =>
    exfalso
    cases l
    · exact h "3840x2160" (by decide) rfl
    · exact h "2560x1440" (by decide) rfl
    · exact h "1920x1080" (by decide) rfl
    · exact h "1280x720" (by decide) rfl
    · exact h "640x480" (by decide) rfl

/-- C1, as stated, fails: a string with the characters of the registered name "640x480" that is
stored at another address than the literal of `kResNameLow` is not found, and the outputs keep
their prior values. -/
theorem TryChooseResolution_equal_content_not_found :
    (CharPtr.other 0 "640x480").content = some "640x480" ∧
    "640x480" ∈ registeredNames ∧
    literalPair "640x480" = some (640, 480) ∧
    TryChooseResolution (CharPtr.other 0 "640x480") 0 0 = (false, 0, 0) := by
  decide

/-- C1, amended: for the address of each of the five registered name literals (`kResNameLow`,
`kResNameHD`, `kResNameFullHD`, `kResName2k`, `kResName4k`, whose characters are the five
registered names), `TryChooseResolution` returns true and sets the outputs to exactly the literal
pair of that name; matching is by the address of the string, not by its characters: a string
stored at any other address is not found and the outputs keep their prior values. -/
theorem TryChooseResolution_matches_by_address (w h : Nat) :
    (kResNameLow.content = some "640x480" ∧
      TryChooseResolution kResNameLow w h = (true, 640, 480)) ∧
    (kResNameHD.content = some "1280x720" ∧
      TryChooseResolution kResNameHD w h = (true, 1280, 720)) ∧
    (kResNameFullHD.content = some "1920x1080" ∧
      TryChooseResolution kResNameFullHD w h = (true, 1920, 1080)) ∧
    (kResName2k.content = some "2560x1440" ∧
      TryChooseResolution kResName2k w h = (true, 2560, 1440)) ∧
    (kResName4k.content = some "3840x2160" ∧
      TryChooseResolution kResName4k w h = (true, 3840, 2160)) ∧
    (∀ (address : Nat) (text : String),
      TryChooseResolution (CharPtr.other address text) w h = (false, w, h)) :=
  ⟨⟨rfl, rfl⟩, ⟨rfl, rfl⟩, ⟨rfl, rfl⟩, ⟨rfl, rfl⟩, ⟨rfl, rfl⟩, fun _ _ => rfl⟩

/-- C2: for every pointer whose string is none of the five registered names (the empty string
included, and the null pointer, which has no string) and for every prior value of the outputs,
`TryChooseResolution` returns false and leaves `OutWidth` and `OutHeight` as they were. -/
theorem TryChooseResolution_unregistered (p : CharPtr) (w h : Nat)
    (hp : ∀ name, name ∈ registeredNames → p.content ≠ some name) :
    TryChooseResolution p w h = (false, w, h) := by
  simp [TryChooseResolution, find_unregistered p hp]

/-- Witness of C2: the empty string, stored anywhere, is not found and the outputs stay. -/
theorem TryChooseResolution_unregistered_witness :
    (∀ name, name ∈ registeredNames → (CharPtr.other 7 "").content ≠ some name) ∧
    TryChooseResolution (CharPtr.other 7 "") 1920 1080 = (false, 1920, 1080) :=
  ⟨by decide, TryChooseResolution_unregistered (CharPtr.other 7 "") 1920 1080 (by decide)⟩

/-- C3: `kAvailableResolutions` is the five names "640x480", "1280x720", "1920x1080",
"2560x1440", "3840x2160" in that order, `TryChooseResolution` finds each of them whatever the
outputs held before, and the widths, the heights and the pixel counts it returns are strictly
increasing along the list. -/
theorem kAvailableResolutions_ascending (w h : Nat) :
    kAvailableResolutions.map CharPtr.content =
      [some "640x480", some "1280x720", some "1920x1080", some "2560x1440",
       some "3840x2160"] ∧
    kAvailableResolutions.map (fun p => TryChooseResolution p w h) =
      [(true, 640, 480), (true, 1280, 720), (true, 1920, 1080), (true, 2560, 1440),
       (true, 3840, 2160)] ∧
    List.Pairwise (fun a b => a < b)
      (kAvailableResolutions.map (fun p => (TryChooseResolution p w h).2.1)) ∧
    List.Pairwise (fun a b => a < b)
      (kAvailableResolutions.map (fun p => (TryChooseResolution p w h).2.2)) ∧
    List.Pairwise (fun a b => a < b)
      (kAvailableResolutions.map
        (fun p => (TryChooseResolution p w h).2.1 * (TryChooseResolution p w h).2.2)) := by
  refine ⟨rfl, rfl, ?_, ?_, ?_⟩
  · show List.Pairwise (fun a b => a < b) [640, 1280, 1920, 2560, 3840]
    decide
  · show List.Pairwise (fun a b => a < b) [480, 720, 1080, 1440, 2160]
    decide
  · show List.Pairwise (fun a b => a < b) [640 * 480, 1280 * 720, 1920 * 1080, 2560 * 1440,
      3840 * 2160]
    decide

theorem registryTargets_cases (target : Nat × Nat) (h : target ∈ registryTargets) :
    target = (3840, 2160) ∨ target = (2560, 1440) ∨ target = (1920, 1080) ∨
      target = (1280, 720) ∨ target = (640, 480) := by
  simpa [registryTargets, kResolutionMap, kRes4k, kRes2k, kResFullHD, kResHD, kResLow,
    kWidth4k, kHeight4k, kWidth2k, kHeight2k, kWidthFullHD, kHeightFullHD, kWidthHD, kHeightHD,
    kWidthLow, kHeightLow] using h

theorem registryTargets_no_wrap (target : Nat × Nat) (h : target ∈ registryTargets) :
    0 < target.1 ∧ 0 < target.2 ∧ target.1 * target.2 < 2 ^ 32 ∧
      mul32 target.1 target.2 = target.1 * target.2 := by
  rcases registryTargets_cases target h with h | h | h | h | h <;> subst h <;> decide

/-! ## The frame-buffer controller -/

/-- C4: after `Render` completes, whatever values `Random::UInt` returned, every cell of
`ImageData` with an index below `RenderingWidth * RenderingHeight` (the `uint32_t` product, which
is the exact product for the targets of the registry) has `0xFF` in bits 24-31; and `Render`
does complete whenever the image and the array of the layer fit together. -/
theorem Render_alpha_opaque (L : RayTracingLayer) (R : Runtime) :
    (Consistent L = true → ∃ out, Render L R = .ok out) ∧
    (∀ (L1 : RayTracingLayer) (R1 : Runtime), Render L R = .ok (L1, R1) →
      ∀ I, I < mul32 L.RenderingWidth L.RenderingHeight →
        ∃ arr v, L1.ImageData = some arr ∧ arr.cells[I]? = some v ∧ topByte v = 0xFF) ∧
    ((L.RenderingWidth, L.RenderingHeight) ∈ registryTargets →
      mul32 L.RenderingWidth L.RenderingHeight = L.RenderingWidth * L.RenderingHeight) := by
  refine ⟨?_, ?_, ?_⟩
  · intro hC
    obtain ⟨L1, R1, _, _, hrun, _⟩ := Render_total L R hC
    exact ⟨(L1, R1), hrun⟩
  · intro L1 R1 hrun I hI
    obtain ⟨arr, harr, hcells⟩ := Render_ok_cells L L1 R R1 hrun
    exact ⟨arr, _, harr, hcells I hI, topByte_lor_alpha _⟩
  · intro ht
    exact (registryTargets_no_wrap _ ht).2.2.2

/-- Witness of C4: a first `Render` at 640 by 480 completes and all 307200 pixels are opaque. -/
theorem Render_alpha_opaque_witness :
    Consistent (retarget RayTracingLayer.initial (640, 480)) = true ∧
    (640, 480) ∈ registryTargets ∧
    ∃ (L1 : RayTracingLayer) (R1 : Runtime),
      Render (retarget RayTracingLayer.initial (640, 480))
        (Runtime.initial (fun n => 3 * n + 1)) = .ok (L1, R1) ∧
      ∀ I, I < 640 * 480 →
        ∃ arr v, L1.ImageData = some arr ∧ arr.cells[I]? = some v ∧ topByte v = 0xFF := by
  have key := Render_alpha_opaque (retarget RayTracingLayer.initial (640, 480))
    (Runtime.initial (fun n => 3 * n + 1))
  obtain ⟨⟨L1, R1⟩, hrun⟩ := key.1 rfl
  refine ⟨rfl, by decide, L1, R1, hrun, ?_⟩
  intro I hI
  exact key.2.1 L1 R1 hrun I (by rw [key.2.2 (by decide)]; exact hI)

theorem Render_valid_same (L : RayTracingLayer) (R : Runtime) (hC : Consistent L = true)
    (hV : IsRenderedImageValid L = true) :
    ∃ (L1 : RayTracingLayer) (R1 : Runtime),
      Render L R = .ok (L1, R1) ∧ SameObjects L L1 R R1 ∧
      L1.RenderingWidth = L.RenderingWidth ∧ L1.RenderingHeight = L.RenderingHeight ∧
      L1.RenderedImage.map Image.GetWidth = L.RenderedImage.map Image.GetWidth ∧
      L1.RenderedImage.map Image.GetHeight = L.RenderedImage.map Image.GetHeight ∧
      L1.ImageData.map (fun a => a.cells.length) =
        L.ImageData.map (fun a => a.cells.length) := by
  obtain ⟨img, arr, cells1, hI, hD, hw, hh, hrun, hl, _⟩ := Render_valid L R hC hV
  refine ⟨_, _, hrun, ?_, rfl, rfl, ?_, ?_, ?_⟩
  · simp [SameObjects, hI, hD, Image.SetData]
  · simp [hI, Image.SetData, Image.GetWidth]
  · simp [hI, Image.SetData, Image.GetHeight]
  · have hlen : arr.cells.length = mul32 L.RenderingWidth L.RenderingHeight := by
      simpa [Consistent, hI, hD, Image.GetWidth, Image.GetHeight, hw, hh] using hC
    simp [hD, hl, hlen]

theorem Render_then_valid (L : RayTracingLayer) (R : Runtime) (hC : Consistent L = true) :
    ∃ (L1 : RayTracingLayer) (R1 : Runtime),
      Render L R = .ok (L1, R1) ∧ Consistent L1 = true ∧ IsRenderedImageValid L1 = true ∧
      R1.imagesCreated ≤ R.imagesCreated + 1 ∧ R1.arraysAllocated ≤ R.arraysAllocated + 1 := by
  cases hV : IsRenderedImageValid L with
  | false =>
    obtain ⟨cells1, hrun, hl, _⟩ := Render_invalid L R hV
    refine ⟨_, _, hrun, ?_, ?_, ?_, ?_⟩
    · simp [Consistent, Image.GetWidth, Image.GetHeight, hl]
    · simp [IsRenderedImageValid, Image.GetWidth, Image.GetHeight]
    · simp
    · simp
  | true =>
    obtain ⟨img, arr, cells1, _, _, hw, hh, hrun, hl, _⟩ := Render_valid L R hC hV
    refine ⟨_, _, hrun, ?_, ?_, ?_, ?_⟩
    · simp [Consistent, Image.GetWidth, Image.GetHeight, Image.SetData, hl, hw, hh]
    · simp [IsRenderedImageValid, Image.GetWidth, Image.GetHeight, Image.SetData, hw, hh]
    · simp
    · simp

theorem ControllerReachable_image_registry {L : RayTracingLayer} {R : Runtime}
    (h : ControllerReachable L R) :
    ∀ img, L.RenderedImage = some img → (img.Width, img.Height) ∈ registryTargets := by
  induction h with
  | initial random => intro img himg; simp [RayTracingLayer.initial] at himg
  | render target hprev ht hrun _ =>
    obtain ⟨L2, R2, img2, _, hrun2, himg2, _, hw, hh, _⟩ :=
      Render_total (retarget _ target) _
        ((Consistent_retarget _ target).trans (ControllerReachable_consistent hprev))
    rw [hrun2] at hrun
    simp only [Except.ok.injEq, Prod.mk.injEq] at hrun
    intro img himg
    rw [← hrun.1, himg2] at himg
    simp only [Option.some.injEq] at himg
    rw [← himg, hw, hh]
    exact ht

/-- C5: for every target of the registry and every controller state reachable from the initial
state (with no image, an image of the target's size or an image of another size), `Render`
completes and at its end the pixel array has `RenderingWidth * RenderingHeight` cells and the
image has the width and the height of the target. -/
theorem Render_sizes_array_and_image (L : RayTracingLayer) (R : Runtime)
    (hR : ControllerReachable L R) (target : Nat × Nat) (ht : target ∈ registryTargets) :
    ∃ (L1 : RayTracingLayer) (R1 : Runtime) (img : Image) (arr : PixelArray),
      Render (retarget L target) R = .ok (L1, R1) ∧
      L1.RenderedImage = some img ∧ L1.ImageData = some arr ∧
      L1.RenderingWidth = target.1 ∧ L1.RenderingHeight = target.2 ∧
      arr.cells.length = target.1 * target.2 ∧
      img.GetWidth = target.1 ∧ img.GetHeight = target.2 := by
  obtain ⟨L1, R1, img, arr, hrun, himg, harr, hw, hh, hl, hW, hH, _⟩ :=
    Render_total (retarget L target) R ((Consistent_retarget L target).trans (ControllerReachable_consistent hR))
  refine ⟨L1, R1, img, arr, hrun, himg, harr, hW, hH, ?_, hw, hh⟩
  rw [hl]
  exact (registryTargets_no_wrap target ht).2.2.2

/-- Witness of C5: the target 1280 by 720 from the initial state gives 921600 cells. -/
theorem Render_sizes_array_and_image_witness :
    ControllerReachable RayTracingLayer.initial (Runtime.initial (fun n => n)) ∧
    ((1280, 720) : Nat × Nat) ∈ registryTargets ∧
    ∃ (L1 : RayTracingLayer) (R1 : Runtime) (img : Image) (arr : PixelArray),
      Render (retarget RayTracingLayer.initial (1280, 720)) (Runtime.initial (fun n => n)) =
        .ok (L1, R1) ∧
      L1.RenderedImage = some img ∧ L1.ImageData = some arr ∧
      L1.RenderingWidth = 1280 ∧ L1.RenderingHeight = 720 ∧
      arr.cells.length = 921600 ∧ img.GetWidth = 1280 ∧ img.GetHeight = 720 :=
  ⟨.initial _, by decide,
    Render_sizes_array_and_image RayTracingLayer.initial (Runtime.initial (fun n => n))
      (.initial _) (1280, 720) (by decide)⟩

/-- C6: when `Render` is called on a layer (whose image and array fit together, as in every
reachable state) that already has an image of `RenderingWidth` by `RenderingHeight`, it completes
without any allocation or release: the image and the array afterwards are the objects held
before, with the same dimensions and length, and only the contents changed.  So of two
consecutive `Render` calls with the same target the second allocates nothing, and the two
together create at most one image and one array. -/
theorem Render_reuses_valid_image (L : RayTracingLayer) (R : Runtime)
    (hC : Consistent L = true) :
    (IsRenderedImageValid L = true →
      ∃ (L1 : RayTracingLayer) (R1 : Runtime),
        Render L R = .ok (L1, R1) ∧ SameObjects L L1 R R1 ∧
        L1.RenderingWidth = L.RenderingWidth ∧ L1.RenderingHeight = L.RenderingHeight ∧
        L1.RenderedImage.map Image.GetWidth = L.RenderedImage.map Image.GetWidth ∧
        L1.RenderedImage.map Image.GetHeight = L.RenderedImage.map Image.GetHeight ∧
        L1.ImageData.map (fun a => a.cells.length) =
          L.ImageData.map (fun a => a.cells.length)) ∧
    (∃ (L1 L2 : RayTracingLayer) (R1 R2 : Runtime),
      Render L R = .ok (L1, R1) ∧ Render L1 R1 = .ok (L2, R2) ∧
      L1.RenderingWidth = L.RenderingWidth ∧ L1.RenderingHeight = L.RenderingHeight ∧
      SameObjects L1 L2 R1 R2 ∧
      R2.imagesCreated ≤ R.imagesCreated + 1 ∧ R2.arraysAllocated ≤ R.arraysAllocated + 1) := by
  constructor
  · intro hV
    exact Render_valid_same L R hC hV
  · obtain ⟨L1, R1, hrun1, hC1, hV1, hi, ha⟩ := Render_then_valid L R hC
    obtain ⟨L2, R2, hrun2, hsame, _⟩ := Render_valid_same L1 R1 hC1 hV1
    obtain ⟨L1b, R1b, _, _, hrun1b, _, _, _, _, _, hW, hH, _⟩ := Render_total L R hC
    rw [hrun1] at hrun1b
    simp only [Except.ok.injEq, Prod.mk.injEq] at hrun1b
    refine ⟨L1, L2, R1, R2, hrun1, hrun2, ?_, ?_, hsame, ?_, ?_⟩
    · rw [hrun1b.1]; exact hW
    · rw [hrun1b.1]; exact hH
    · rw [hsame.2.2.2.2.1]; exact hi
    · rw [hsame.2.2.2.2.2.2.1]; exact ha

/-- Witness of C6: a layer holding image 4 (2 by 3) and array 9 keeps both objects. -/
theorem Render_reuses_valid_image_witness :
    Consistent
      { RayTracingLayer.initial with
        RenderedImage := some { handle := 4, Width := 2, Height := 3, Pixels := [] }
        ImageData := some { block := 9, cells := [0, 0, 0, 0, 0, 0] }
        RenderingWidth := 2
        RenderingHeight := 3 } = true ∧
    IsRenderedImageValid
      { RayTracingLayer.initial with
        RenderedImage := some { handle := 4, Width := 2, Height := 3, Pixels := [] }
        ImageData := some { block := 9, cells := [0, 0, 0, 0, 0, 0] }
        RenderingWidth := 2
        RenderingHeight := 3 } = true ∧
    ∃ (L1 : RayTracingLayer) (R1 : Runtime),
      Render
        { RayTracingLayer.initial with
          RenderedImage := some { handle := 4, Width := 2, Height := 3, Pixels := [] }
          ImageData := some { block := 9, cells := [0, 0, 0, 0, 0, 0] }
          RenderingWidth := 2
          RenderingHeight := 3 }
        (Runtime.initial (fun n => n)) = .ok (L1, R1) ∧
      L1.RenderedImage.map Image.handle = some 4 ∧
      L1.ImageData.map PixelArray.block = some 9 ∧
      R1.imagesCreated = 0 ∧ R1.arraysAllocated = 0 ∧
      R1.imagesReleased = 0 ∧ R1.arraysFreed = 0 := by
  obtain ⟨L1, R1, hrun, hsame, _⟩ :=
    (Render_reuses_valid_image
      { RayTracingLayer.initial with
        RenderedImage := some { handle := 4, Width := 2, Height := 3, Pixels := [] }
        ImageData := some { block := 9, cells := [0, 0, 0, 0, 0, 0] }
        RenderingWidth := 2
        RenderingHeight := 3 }
      (Runtime.initial (fun n => n)) (by decide)).1 (by decide)
  exact ⟨by decide, by decide, L1, R1, hrun, hsame.2.2.1, hsame.2.2.2.1, hsame.2.2.2.2.1,
    hsame.2.2.2.2.2.2.1, hsame.2.2.2.2.2.1, hsame.2.2.2.2.2.2.2⟩

/-- C10: in every state reachable from the initial state by `Render` calls with targets of the
registry, the image and the array exist together and the array has exactly width times height
cells of the image; and for every target of the registry the 32-bit product of the target does
not wrap, when the pixel loop is entered the array exists and has exactly
`RenderingWidth * RenderingHeight` cells, the bound of the loop, and `Render` completes without
a write through an absent array or past its end. -/
theorem Render_memory_safe (L : RayTracingLayer) (R : Runtime)
    (hR : ControllerReachable L R) (target : Nat × Nat) (ht : target ∈ registryTargets) :
    L.RenderedImage.isSome = L.ImageData.isSome ∧
    (∀ img arr, L.RenderedImage = some img → L.ImageData = some arr →
      arr.cells.length = img.GetWidth * img.GetHeight) ∧
    target.1 * target.2 < 2 ^ 32 ∧
    (∀ R0 : Runtime, ∃ arr,
      (Render.ensure (retarget L target) R0).1.ImageData = some arr ∧
      arr.cells.length = target.1 * target.2 ∧
      mul32 (Render.ensure (retarget L target) R0).1.RenderingWidth
        (Render.ensure (retarget L target) R0).1.RenderingHeight = arr.cells.length) ∧
    ∃ out, Render (retarget L target) R = .ok out := by
  have hC := ControllerReachable_consistent hR
  have hreg := ControllerReachable_image_registry hR
  have hwrap := registryTargets_no_wrap target ht
  refine ⟨?_, ?_, hwrap.2.2.1, ?_, ?_⟩
  · cases hI : L.RenderedImage <;> cases hD : L.ImageData <;>
      simp [Consistent, hI, hD] at hC ⊢
  · intro img arr hI hD
    have hlen : arr.cells.length = mul32 img.Width img.Height := by
      simpa [Consistent, hI, hD, Image.GetWidth, Image.GetHeight] using hC
    have := (registryTargets_no_wrap _ (hreg img hI)).2.2.2
    simp only [Image.GetWidth, Image.GetHeight]
    rw [hlen]
    exact this
  · intro R0
    cases hV : IsRenderedImageValid (retarget L target) with
    | false =>
      refine ⟨_, by simp [Render.ensure, hV, Render.reallocate]; rfl, ?_, ?_⟩
      · simpa [retarget] using hwrap.2.2.2
      · simp [Render.ensure, hV, Render.reallocate]
    | true =>
      cases hI : L.RenderedImage with
      | none => simp [IsRenderedImageValid, retarget, hI] at hV
      | some img =>
        cases hD : L.ImageData with
        | none => simp [Consistent, hI, hD] at hC
        | some arr =>
          simp [IsRenderedImageValid, retarget, hI, Image.GetWidth, Image.GetHeight] at hV
          have hlen : arr.cells.length = mul32 target.1 target.2 := by
            simpa [Consistent, hI, hD, Image.GetWidth, Image.GetHeight, hV.1, hV.2] using hC
          refine ⟨arr, ?_, ?_, ?_⟩
          · simp [Render.ensure, IsRenderedImageValid, retarget, hI, hD, Image.GetWidth,
              Image.GetHeight, hV.1, hV.2]
          · rw [hlen]; exact hwrap.2.2.2
          · simp [Render.ensure, IsRenderedImageValid, retarget, hI, Image.GetWidth,
              Image.GetHeight, hV.1, hV.2, hlen]
  · obtain ⟨L1, R1, _, _, hrun, _⟩ :=
      Render_total (retarget L target) R ((Consistent_retarget L target).trans hC)
    exact ⟨(L1, R1), hrun⟩

/-- Witness of C10: `Render` at 3840 by 2160 from the initial state completes. -/
theorem Render_memory_safe_witness :
    ControllerReachable RayTracingLayer.initial (Runtime.initial (fun n => 7 * n)) ∧
    ((3840, 2160) : Nat × Nat) ∈ registryTargets ∧
    (3840 : Nat) * 2160 < 2 ^ 32 ∧
    ∃ out, Render (retarget RayTracingLayer.initial (3840, 2160))
      (Runtime.initial (fun n => 7 * n)) = .ok out :=
  ⟨.initial _, by decide,
    (Render_memory_safe RayTracingLayer.initial (Runtime.initial (fun n => 7 * n))
      (.initial _) (3840, 2160) (by decide)).2.2.1,
    (Render_memory_safe RayTracingLayer.initial (Runtime.initial (fun n => 7 * n))
      (.initial _) (3840, 2160) (by decide)).2.2.2.2⟩

/-! ## The UI frame -/

theorem HandleSettingsPanel_IsRealtime (inp : FrameInput) (L : RayTracingLayer) :
    (HandleSettingsPanel inp L).IsRealtime = Checkbox inp.CheckboxClicked L.IsRealtime := by
  unfold HandleSettingsPanel HandleRenderingSettings
  by_cases h : inp.ComboOpen <;> simp [h]

theorem HandleSettingsPanel_ShouldRender (inp : FrameInput) (L : RayTracingLayer) :
    (HandleSettingsPanel inp L).ShouldRender =
      (!(if L.ShouldRender && Checkbox inp.CheckboxClicked L.IsRealtime then inp.StopButton
          else false) &&
        (inp.RenderButton || (L.ShouldRender && Checkbox inp.CheckboxClicked L.IsRealtime))) := by
  unfold HandleSettingsPanel HandleRenderingSettings
  by_cases h : inp.ComboOpen <;> simp [h]

theorem OnUIRender_renders (inp : FrameInput) (L : RayTracingLayer) (R : Runtime)
    (hC : Consistent L = true) :
    ∃ (L1 : RayTracingLayer) (R1 : Runtime),
      OnUIRender inp L R = .ok (L1, R1) ∧ Consistent L1 = true ∧
      L1.IsRealtime = Checkbox inp.CheckboxClicked L.IsRealtime ∧
      L1.ShouldRender = (HandleSettingsPanel inp L).ShouldRender ∧
      R1.renders = R.renders + (if (HandleSettingsPanel inp L).ShouldRender then 1 else 0) := by
  obtain ⟨L1, R1, hrun, hC1, hr, hs, _, _, _, hlog⟩ := OnUIRender_total inp L R hC
  refine ⟨L1, R1, hrun, hC1, hr.trans (HandleSettingsPanel_IsRealtime inp L), hs, ?_⟩
  simp only [Runtime.renders, hlog, List.length_append]
  cases (HandleSettingsPanel inp L).ShouldRender <;> simp

theorem runFrames_realtime_off (frames : List FrameInput) :
    ∀ (L : RayTracingLayer) (R : Runtime), Consistent L = true →
      realtimeOffThroughout L.IsRealtime frames = true →
      ∃ (L1 : RayTracingLayer) (R1 : Runtime),
        runFrames frames L R = .ok (L1, R1) ∧
        R1.renders = R.renders + renderPresses frames := by
  induction frames with
  | nil => intro L R _ _; exact ⟨L, R, rfl, by simp [renderPresses]⟩
  | cons inp rest ih =>
    intro L R hC hOff
    simp only [realtimeOffThroughout, Bool.and_eq_true, Bool.not_eq_true'] at hOff
    obtain ⟨L1, R1, hrun, hC1, hr, _, hn⟩ := OnUIRender_renders inp L R hC
    obtain ⟨L2, R2, hrun2, hn2⟩ := ih L1 R1 hC1 (by rw [hr]; exact hOff.2)
    refine ⟨L2, R2, by simp [runFrames, hrun, hrun2], ?_⟩
    rw [hn2, hn, HandleSettingsPanel_ShouldRender, hOff.1]
    cases hb : inp.RenderButton <;> simp [renderPresses, List.countP_cons, hb]
    omega

/-- C7: in a UI frame, run from a consistent and so from every reachable layer, in which the
Realtime checkbox is off (`IsRealtime` is false after the `Checkbox` call of the frame),
whatever `ShouldRender` was before, `OnUIRender` completes and
invokes `Render` once if the "Render" button was pressed in the frame and not at all otherwise;
over a sequence of frames with Realtime off throughout, the number of `Render` invocations is the
number of frames in which the button was pressed. -/
theorem OnUIRender_realtime_off (L : RayTracingLayer) (R : Runtime)
    (hC : Consistent L = true) :
    (∀ inp : FrameInput, Checkbox inp.CheckboxClicked L.IsRealtime = false →
      ∃ (L1 : RayTracingLayer) (R1 : Runtime),
        OnUIRender inp L R = .ok (L1, R1) ∧
        L1.ShouldRender = inp.RenderButton ∧
        R1.renders = R.renders + (if inp.RenderButton then 1 else 0)) ∧
    (∀ frames : List FrameInput, realtimeOffThroughout L.IsRealtime frames = true →
      ∃ (L1 : RayTracingLayer) (R1 : Runtime),
        runFrames frames L R = .ok (L1, R1) ∧
        R1.renders = R.renders + renderPresses frames) := by
  constructor
  · intro inp hOff
    obtain ⟨L1, R1, hrun, _, _, hs, hn⟩ := OnUIRender_renders inp L R hC
    have hS : (HandleSettingsPanel inp L).ShouldRender = inp.RenderButton := by
      rw [HandleSettingsPanel_ShouldRender, hOff]; simp
    exact ⟨L1, R1, hrun, hs.trans hS, by rw [hn, hS]⟩
  · intro frames hOff
    exact runFrames_realtime_off frames L R hC hOff

/-- Witness of C7: three frames with Realtime off and two presses of "Render" render
twice. -/
theorem OnUIRender_realtime_off_witness :
    Consistent { RayTracingLayer.initial with ShouldRender := true } = true ∧
    realtimeOffThroughout false
      [⟨false, false, fun _ _ => false, true, true⟩,
       ⟨false, true, fun I _ => decide (I = 2), false, false⟩,
       ⟨false, false, fun _ _ => false, true, false⟩] = true ∧
    ∃ (L1 : RayTracingLayer) (R1 : Runtime),
      runFrames
        [⟨false, false, fun _ _ => false, true, true⟩,
         ⟨false, true, fun I _ => decide (I = 2), false, false⟩,
         ⟨false, false, fun _ _ => false, true, false⟩]
        { RayTracingLayer.initial with ShouldRender := true }
        (Runtime.initial (fun n => n)) = .ok (L1, R1) ∧
      R1.renders = 2 :=
  ⟨by decide, by decide,
    (OnUIRender_realtime_off { RayTracingLayer.initial with ShouldRender := true }
      (Runtime.initial (fun n => n)) (by decide)).2
      [⟨false, false, fun _ _ => false, true, true⟩,
       ⟨false, true, fun I _ => decide (I = 2), false, false⟩,
       ⟨false, false, fun _ _ => false, true, false⟩] (by decide)⟩

theorem runFrames_append (frames later : List FrameInput) :
    ∀ (L L1 : RayTracingLayer) (R R1 : Runtime), runFrames frames L R = .ok (L1, R1) →
      runFrames (frames ++ later) L R = runFrames later L1 R1 := by
  induction frames with
  | nil =>
    intro L L1 R R1 h
    simp only [runFrames, Except.ok.injEq, Prod.mk.injEq] at h
    rw [List.nil_append, h.1, h.2]
  | cons inp rest ih =>
    intro L L1 R R1 h
    cases hrun : OnUIRender inp L R with
    | error e => simp [runFrames, hrun] at h
    | ok out =>
      obtain ⟨La, Ra⟩ := out
      simp only [runFrames, hrun] at h
      simp only [List.cons_append, runFrames, hrun]
      exact ih La L1 Ra R1 h

theorem runFrames_idle (frames : List FrameInput) :
    ∀ (L : RayTracingLayer) (R : Runtime), Consistent L = true → L.ShouldRender = false →
      (∀ inp, inp ∈ frames → inp.RenderButton = false) →
      ∃ (L1 : RayTracingLayer) (R1 : Runtime),
        runFrames frames L R = .ok (L1, R1) ∧ Consistent L1 = true ∧
        L1.ShouldRender = false ∧ R1.renders = R.renders := by
  induction frames with
  | nil => intro L R hC hS _; exact ⟨L, R, rfl, hC, hS, rfl⟩
  | cons inp rest ih =>
    intro L R hC hS hno
    obtain ⟨L1, R1, hrun, hC1, _, hs, hn⟩ := OnUIRender_renders inp L R hC
    have hS1 : (HandleSettingsPanel inp L).ShouldRender = false := by
      rw [HandleSettingsPanel_ShouldRender, hS, hno inp (List.mem_cons_self _ _)]; simp
    obtain ⟨L2, R2, hrun2, hC2, hS2, hn2⟩ :=
      ih L1 R1 hC1 (hs.trans hS1) (fun i hi => hno i (List.mem_cons_of_mem _ hi))
    refine ⟨L2, R2, by simp [runFrames, hrun, hrun2], hC2, hS2, ?_⟩
    rw [hn2, hn, hS1]; simp

/-- C8: in a UI frame, run from a consistent and so from every reachable layer, in which
Realtime is on (`IsRealtime` is true after the `Checkbox` call of the frame) and `ShouldRender`
was true at the start, `OnUIRender` completes and invokes `Render`
exactly once if the "Stop" button was not pressed and not at all if it was; when "Stop" is
pressed `ShouldRender` is false after the frame, also when the "Render" button was pressed in the
same frame, and in the frames that follow `Render` is not invoked as long as the "Render" button
is not pressed, and is invoked once in the frame in which it is pressed again. -/
theorem OnUIRender_realtime_stop (inp : FrameInput) (L : RayTracingLayer) (R : Runtime)
    (hC : Consistent L = true)
    (hOn : Checkbox inp.CheckboxClicked L.IsRealtime = true)
    (hS : L.ShouldRender = true) :
    ∃ (L1 : RayTracingLayer) (R1 : Runtime),
      OnUIRender inp L R = .ok (L1, R1) ∧
      R1.renders = R.renders + (if inp.StopButton then 0 else 1) ∧
      L1.ShouldRender = !inp.StopButton ∧
      (inp.StopButton = true →
        ∀ later : List FrameInput, (∀ f, f ∈ later → f.RenderButton = false) →
          (∃ (L2 : RayTracingLayer) (R2 : Runtime),
            runFrames later L1 R1 = .ok (L2, R2) ∧
            L2.ShouldRender = false ∧ R2.renders = R1.renders) ∧
          (∀ next : FrameInput, next.RenderButton = true →
            ∃ (L3 : RayTracingLayer) (R3 : Runtime),
              runFrames (later ++ [next]) L1 R1 = .ok (L3, R3) ∧
              R3.renders = R1.renders + 1)) := by
  obtain ⟨L1, R1, hrun, hC1, _, hs, hn⟩ := OnUIRender_renders inp L R hC
  have hS1 : (HandleSettingsPanel inp L).ShouldRender = !inp.StopButton := by
    rw [HandleSettingsPanel_ShouldRender, hOn, hS]; simp
  refine ⟨L1, R1, hrun, ?_, hs.trans hS1, ?_⟩
  · rw [hn, hS1]; cases inp.StopButton <;> simp
  · intro hstop later hno
    have hidle : L1.ShouldRender = false := by rw [hs, hS1, hstop]; rfl
    obtain ⟨L2, R2, hrun2, hC2, hS2, hn2⟩ := runFrames_idle later L1 R1 hC1 hidle hno
    refine ⟨⟨L2, R2, hrun2, hS2, hn2⟩, ?_⟩
    intro next hnext
    obtain ⟨L3, R3, hrun3, _, _, _, hn3⟩ := OnUIRender_renders next L2 R2 hC2
    have hS3 : (HandleSettingsPanel next L2).ShouldRender = true := by
      rw [HandleSettingsPanel_ShouldRender, hS2, hnext]; simp
    refine ⟨L3, R3, ?_, ?_⟩
    · rw [runFrames_append later [next] L1 L2 R1 R2 hrun2]
      simp [runFrames, hrun3]
    · rw [hn3, hS3, hn2]; simp

/-- Witness of C8: "Stop" and "Render" pressed in one realtime frame: nothing is rendered. -/
theorem OnUIRender_realtime_stop_witness :
    Consistent { RayTracingLayer.initial with IsRealtime := true, ShouldRender := true } = true ∧
    Checkbox false true = true ∧
    ∃ (L1 : RayTracingLayer) (R1 : Runtime),
      OnUIRender ⟨false, false, fun _ _ => false, true, true⟩
        { RayTracingLayer.initial with IsRealtime := true, ShouldRender := true }
        (Runtime.initial (fun n => n)) = .ok (L1, R1) ∧
      R1.renders = 0 ∧ L1.ShouldRender = false := by
  obtain ⟨L1, R1, hrun, hn, hs, _⟩ :=
    OnUIRender_realtime_stop ⟨false, false, fun _ _ => false, true, true⟩
      { RayTracingLayer.initial with IsRealtime := true, ShouldRender := true }
      (Runtime.initial (fun n => n)) (by decide) (by decide) rfl
  exact ⟨by decide, by decide, L1, R1, hrun, hn, hs⟩

theorem selectLoop_mem (Selectable : Nat → Bool → Bool) (entries : List CharPtr) :
    ∀ (I : Nat) (current : CharPtr),
      selectLoop Selectable entries I current = current ∨
        selectLoop Selectable entries I current ∈ entries := by
  induction entries with
  | nil => intro I current; exact Or.inl rfl
  | cons entry rest ih =>
    intro I current
    simp only [selectLoop]
    split
    · rcases ih (I + 1) current with h | h
      · exact Or.inl h
      · exact Or.inr (List.mem_cons_of_mem _ h)
    · rcases ih (I + 1) entry with h | h
      · exact Or.inr (by rw [h]; exact List.mem_cons_self _ _)
      · exact Or.inr (List.mem_cons_of_mem _ h)

theorem HandleSettingsPanel_CurrentResolution (inp : FrameInput) (L : RayTracingLayer)
    (h : L.CurrentResolution ∈ kAvailableResolutions) :
    (HandleSettingsPanel inp L).CurrentResolution ∈ kAvailableResolutions := by
  unfold HandleSettingsPanel HandleRenderingSettings
  by_cases hc : inp.ComboOpen
  · simp only [hc, if_true]
    rcases selectLoop_mem inp.Selectable kAvailableResolutions 0 L.CurrentResolution with e | e
    · rw [e]; exact h
    · exact e
  · simpa [hc] using h

theorem HandleSettingsPanel_target (inp : FrameInput) (L : RayTracingLayer) :
    (HandleSettingsPanel inp L).RenderingWidth =
        (TryChooseResolution (HandleSettingsPanel inp L).CurrentResolution
          L.RenderingWidth L.RenderingHeight).2.1 ∧
      (HandleSettingsPanel inp L).RenderingHeight =
        (TryChooseResolution (HandleSettingsPanel inp L).CurrentResolution
          L.RenderingWidth L.RenderingHeight).2.2 := by
  unfold HandleSettingsPanel HandleRenderingSettings
  by_cases hc : inp.ComboOpen <;> simp [hc]

theorem TryChooseResolution_available (p : CharPtr) (hp : p ∈ kAvailableResolutions) :
    ∃ pw ph, 0 < pw ∧ 0 < ph ∧ ∀ w h, TryChooseResolution p w h = (true, pw, ph) := by
  simp only [kAvailableResolutions, List.mem_cons, List.mem_singleton, List.not_mem_nil,
    or_false] at hp
  rcases hp with e | e | e | e | e <;> subst e
  · exact ⟨640, 480, by decide, by decide, fun _ _ => rfl⟩
  · exact ⟨1280, 720, by decide, by decide, fun _ _ => rfl⟩
  · exact ⟨1920, 1080, by decide, by decide, fun _ _ => rfl⟩
  · exact ⟨2560, 1440, by decide, by decide, fun _ _ => rfl⟩
  · exact ⟨3840, 2160, by decide, by decide, fun _ _ => rfl⟩

theorem HandleSettingsPanel_lookup (inp : FrameInput) (L : RayTracingLayer)
    (h : L.CurrentResolution ∈ kAvailableResolutions) :
    (HandleSettingsPanel inp L).CurrentResolution ∈ kAvailableResolutions ∧
    0 < (HandleSettingsPanel inp L).RenderingWidth ∧
    0 < (HandleSettingsPanel inp L).RenderingHeight ∧
    ∀ w h', TryChooseResolution (HandleSettingsPanel inp L).CurrentResolution w h' =
      (true, (HandleSettingsPanel inp L).RenderingWidth,
        (HandleSettingsPanel inp L).RenderingHeight) := by
  have hmem := HandleSettingsPanel_CurrentResolution inp L h
  obtain ⟨pw, ph, hpw, hph, hall⟩ := TryChooseResolution_available _ hmem
  obtain ⟨hw, hh⟩ := HandleSettingsPanel_target inp L
  rw [hall] at hw hh
  simp only at hw hh
  rw [hw, hh]
  exact ⟨hmem, hpw, hph, hall⟩

theorem FrameReachable_registered {L : RayTracingLayer} {R : Runtime}
    (hR : FrameReachable L R) :
    L.CurrentResolution ∈ kAvailableResolutions ∧
    ∀ entry, entry ∈ R.renderLog →
      entry.1 ∈ kAvailableResolutions ∧ 0 < entry.2.1 ∧ 0 < entry.2.2 ∧
      ∀ w h, TryChooseResolution entry.1 w h = (true, entry.2.1, entry.2.2) := by
  induction hR with
  | initial random =>
    exact ⟨by decide, by intro entry he; simp [Runtime.initial] at he⟩
  | frame inp hprev hrun ih =>
    obtain ⟨L2, R2, hrun2, _, _, _, hc, hw, hh, hlog⟩ :=
      OnUIRender_total inp _ _ (FrameReachable_consistent hprev)
    rw [hrun2] at hrun
    simp only [Except.ok.injEq, Prod.mk.injEq] at hrun
    obtain ⟨hmem, hpw, hph, hall⟩ := HandleSettingsPanel_lookup inp _ ih.1
    rw [← hrun.1, ← hrun.2]
    refine ⟨by rw [hc]; exact hmem, ?_⟩
    intro entry he
    rw [hlog, List.mem_append] at he
    rcases he with he | he
    · exact ih.2 entry he
    · split at he
      · simp only [List.mem_singleton] at he
        subst he
        exact ⟨hmem, hpw, hph, hall⟩
      · simp at he

/-- C9: in every state reachable from the initial layer state by UI frames, whatever the widgets
return, `CurrentResolution` is one of the five registered names of `kAvailableResolutions`; in
every frame run from such a state the lookup of `HandleRenderingSettings` succeeds and leaves
`RenderingWidth` and `RenderingHeight` positive; and every invocation of `Render` made so far
had a registered name selected and `RenderingWidth` and `RenderingHeight` positive and equal to
the registered pair of that name. -/
theorem Render_target_registered (L : RayTracingLayer) (R : Runtime)
    (hR : FrameReachable L R) :
    L.CurrentResolution ∈ kAvailableResolutions ∧
    (∀ inp : FrameInput,
      (HandleRenderingSettings inp L).CurrentResolution ∈ kAvailableResolutions ∧
      TryChooseResolution (HandleRenderingSettings inp L).CurrentResolution
          L.RenderingWidth L.RenderingHeight =
        (true, (HandleRenderingSettings inp L).RenderingWidth,
          (HandleRenderingSettings inp L).RenderingHeight) ∧
      0 < (HandleRenderingSettings inp L).RenderingWidth ∧
      0 < (HandleRenderingSettings inp L).RenderingHeight ∧
      ∃ (L1 : RayTracingLayer) (R1 : Runtime), OnUIRender inp L R = .ok (L1, R1)) ∧
    (∀ entry, entry ∈ R.renderLog →
      entry.1 ∈ kAvailableResolutions ∧ 0 < entry.2.1 ∧ 0 < entry.2.2 ∧
      ∀ w h, TryChooseResolution entry.1 w h = (true, entry.2.1, entry.2.2)) := by
  obtain ⟨hcur, hlog⟩ := FrameReachable_registered hR
  refine ⟨hcur, ?_, hlog⟩
  intro inp
  obtain ⟨hmem, hpw, hph, hall⟩ := HandleSettingsPanel_lookup inp L hcur
  obtain ⟨L1, R1, hrun, _⟩ := OnUIRender_total inp L R (FrameReachable_consistent hR)
  exact ⟨hmem, hall _ _, hpw, hph, L1, R1, hrun⟩

/-- Witness of C9: a frame that selects entry 2 and presses "Render" renders 1920 by 1080. -/
theorem Render_target_registered_witness :
    ∃ (L1 : RayTracingLayer) (R1 : Runtime),
      OnUIRender ⟨true, true, fun I _ => decide (I = 2), true, false⟩
        RayTracingLayer.initial (Runtime.initial (fun n => n)) = .ok (L1, R1) ∧
      FrameReachable L1 R1 ∧
      L1.CurrentResolution = kResNameFullHD ∧
      R1.renderLog = [(kResNameFullHD, 1920, 1080)] ∧
      L1.CurrentResolution ∈ kAvailableResolutions ∧
      ∀ entry, entry ∈ R1.renderLog →
        entry.1 ∈ kAvailableResolutions ∧ 0 < entry.2.1 ∧ 0 < entry.2.2 ∧
        ∀ w h, TryChooseResolution entry.1 w h = (true, entry.2.1, entry.2.2) := by
  obtain ⟨L1, R1, hrun, _, _, _, hc, _, _, hlog⟩ :=
    OnUIRender_total ⟨true, true, fun I _ => decide (I = 2), true, false⟩
      RayTracingLayer.initial (Runtime.initial (fun n => n)) rfl
  have hreach : FrameReachable L1 R1 := .frame _ (.initial _) hrun
  exact ⟨L1, R1, hrun, hreach, hc.trans rfl, hlog.trans rfl,
    (Render_target_registered L1 R1 hreach).1, (Render_target_registered L1 R1 hreach).2.2⟩
